import Mathlib

/-!
Shallow embedding of the DD-Guard gateway module (`ddguard.py`, `sensor_codes.py`):
the Blynk uploader `blynk_upload`, the cycle driver `upload_live_data`, the
configuration reader `read_config` / `to_int`, and the static sensor exception
code table. Timestamps are modelled as integer epoch seconds, insulin amounts as
rationals, and the side effects of the uploader as an explicit list of emitted
Blynk operations.
-/

/-! ## Constants (ddguard.py, module level) -/

def UPDATE_INTERVAL : Int := 300
def RETRY_INTERVAL : Int := 180
def RETRY_DELAY : Int := 5
def MAX_RETRIES_AT_FAILURE : Nat := 3

def VPIN_SENSOR : Nat := 1
def VPIN_BATTERY : Nat := 2
def VPIN_UNITS : Nat := 3
def VPIN_ARROWS : Nat := 4
def VPIN_STATUS : Nat := 5
def VPIN_ACTINS : Nat := 6
def VPIN_LASTBOLUS : Nat := 7

def BLYNK_WHITE : String := "#F0F0F0"
def BLYNK_GREEN : String := "#23C48E"
def BLYNK_BLUE : String := "#04C0F8"
def BLYNK_YELLOW : String := "#ED9D00"
def BLYNK_RED : String := "#D3435C"

/-! ## Sensor exception codes (sensor_codes.py, class SENSOR_EXCEPTIONS) -/

def SENSOR_OK : Int := 0x0300
def SENSOR_OK_STR : String := "Sensor OK"
def SENSOR_INIT : Int := 0x0301
def SENSOR_INIT_STR : String := "Sensor warming up"
def SENSOR_CAL_NEEDED : Int := 0x0302
def SENSOR_CAL_NEEDED_STR : String := "Calibrate sensor now "
def SENSOR_ERROR : Int := 0x0303
def SENSOR_ERROR_STR : String := "Updating sensor"
def SENSOR_CAL_ERROR : Int := 0x0304
def SENSOR_CAL_ERROR_STR : String := "Calibration error"
def SENSOR_CHANGE_SENSOR : Int := 0x0305
def SENSOR_CHANGE_SENSOR_STR : String := "Change sensor"
def SENSOR_END_OF_LIFE : Int := 0x0306
def SENSOR_END_OF_LIFE_STR : String := "Sensor expired"
def SENSOR_NOT_READY : Int := 0x0307
def SENSOR_NOT_READY_STR : String := "Sensor not ready"
def SENSOR_READING_HIGH : Int := 0x0308
def SENSOR_READING_HIGH_STR : String := "Sensor reading too high"
def SENSOR_READING_LOW : Int := 0x0309
def SENSOR_READING_LOW_STR : String := "Sensor reading too low"
def SENSOR_CAL_PENDING : Int := 0x030A
def SENSOR_CAL_PENDING_STR : String := "Calibrating sensor"
def SENSOR_CHANGE_CAL_ERROR : Int := 0x030B
def SENSOR_CHANGE_CAL_ERROR_STR : String := "Cal error - Change sensor"
def SENSOR_TIME_UNKNOWN : Int := 0x030C
def SENSOR_TIME_UNKNOWN_STR : String := "Time unknown"

/-- Modelled from the spec: `src/sensor_codes.py` ends at `SENSOR_TIME_UNKNOWN`
(0x030C), yet `ddguard.py` references `SENSOR_EXCEPTIONS.SENSOR_LOST`, so the
constant's definition is missing from the sources at hand. The spec lists
"sensor lost" as the last member of the exception enumeration with a canonical
display string; we model it as the next code in the 0x03xx sequence. -/
def SENSOR_LOST : Int := 0x030D

/-- Modelled from the spec: display string for the missing `SENSOR_LOST`
member, following the spec's "sensor lost" canonical-string wording and the
naming convention of the neighbouring entries. -/
def SENSOR_LOST_STR : String := "Sensor lost"

/-- The `sensor_exception_codes` dictionary of `ddguard.py` (lines 107-122),
in source order. -/
def sensor_exception_codes : List (Int × String) :=
  [ (SENSOR_OK, SENSOR_OK_STR),
    (SENSOR_INIT, SENSOR_INIT_STR),
    (SENSOR_CAL_NEEDED, SENSOR_CAL_NEEDED_STR),
    (SENSOR_ERROR, SENSOR_ERROR_STR),
    (SENSOR_CAL_ERROR, SENSOR_CAL_ERROR_STR),
    (SENSOR_CHANGE_SENSOR, SENSOR_CHANGE_SENSOR_STR),
    (SENSOR_END_OF_LIFE, SENSOR_END_OF_LIFE_STR),
    (SENSOR_NOT_READY, SENSOR_NOT_READY_STR),
    (SENSOR_READING_HIGH, SENSOR_READING_HIGH_STR),
    (SENSOR_READING_LOW, SENSOR_READING_LOW_STR),
    (SENSOR_CAL_PENDING, SENSOR_CAL_PENDING_STR),
    (SENSOR_CHANGE_CAL_ERROR, SENSOR_CHANGE_CAL_ERROR_STR),
    (SENSOR_TIME_UNKNOWN, SENSOR_TIME_UNKNOWN_STR),
    (SENSOR_LOST, SENSOR_LOST_STR) ]

/-- Dictionary lookup `sensor_exception_codes[code]`; `isSome` models the
membership test `code in sensor_exception_codes`. -/
def sensorExceptionStr (code : Int) : Option String :=
  sensor_exception_codes.lookup code

/-- The 13 exception codes the spec enumerates (everything in the table except
`SENSOR_OK`). -/
def specExceptionCodes : List Int :=
  [ SENSOR_INIT, SENSOR_CAL_NEEDED, SENSOR_CAL_ERROR, SENSOR_ERROR,
    SENSOR_CHANGE_SENSOR, SENSOR_END_OF_LIFE, SENSOR_NOT_READY,
    SENSOR_READING_HIGH, SENSOR_READING_LOW, SENSOR_CAL_PENDING,
    SENSOR_CHANGE_CAL_ERROR, SENSOR_TIME_UNKNOWN, SENSOR_LOST ]

/-! ## Data model -/

/-- The `data["pumpAlert"]` sub-dictionary: independent boolean alert flags. -/
structure PumpAlert where
  alertSuspend : Bool
  alertSuspendLow : Bool
  alertOnLow : Bool
  alertOnHigh : Bool
  alertBeforeLow : Bool
  alertBeforeHigh : Bool
deriving DecidableEq, Repr

/-- One telemetry snapshot (`liveData` dictionary from the CNL driver).
Timestamps are integer epoch seconds; Python `timedelta` addition becomes
integer addition. -/
structure Snapshot where
  sensorBGL : Int
  sensorBGLTimestamp : Int
  sensorCalMinutesRemaining : Int
  pumpTime : Int
  pumpTimeDrift : Int
  activeInsulin : Rat
  lastBolusAmount : Rat
  lastBolusTime : Int
  insulinUnitsRemaining : Rat
  batteryLevelPercentage : Int
  sensorBatteryLevelPercentage : Int
  trendArrow : String
  pumpAlert : PumpAlert
deriving DecidableEq, Repr

/-- BGL alert thresholds held on `read_config` after loading. -/
structure BglConfig where
  bgl_low_val : Int
  bgl_pre_low_val : Int
  bgl_pre_high_val : Int
  bgl_high_val : Int
deriving DecidableEq, Repr

/-- Severity tier of the BGL gauge, named after the colors `blynk_upload`
assigns to `VPIN_SENSOR`. -/
inductive Severity where
  | normal
  | preAlert
  | alert
  | suspended
  | sensorFault
deriving DecidableEq, Repr

/-- Three-band severity for the battery and reservoir bars. -/
inductive Band where
  | critical
  | warning
  | normal
deriving DecidableEq, Repr

/-- A value written to a Blynk virtual pin. -/
inductive BVal where
  | none
  | int (i : Int)
  | rat (q : Rat)
  | str (s : String)
deriving DecidableEq, Repr

/-- One observable Blynk side effect of the uploader. -/
inductive BlynkOp where
  | write (pin : Nat) (v : BVal)
  | setColor (pin : Nat) (c : String)
  | setLabel (pin : Nat) (l : String)
deriving DecidableEq, Repr

/-! ## Display helpers -/

/-- Two-digit zero-padded decimal, as in `strftime` fields. -/
def two (n : Nat) : String :=
  if n < 10 then "0" ++ toString n else toString n

/-- `strftime("%H:%M")` of an epoch-seconds timestamp (UTC day clock). -/
def hhmm (t : Int) : String :=
  two ((t.toNat / 3600) % 24) ++ ":" ++ two ((t.toNat % 3600) / 60)

/-- Python `round` (banker's rounding, ties to even) followed by `int`,
as in `int(round(data["insulinUnitsRemaining"]))`. -/
def pyRound (q : Rat) : Int :=
  let f := q.floor
  let r := q - (f : Rat)
  if r < 1/2 then f
  else if (1:Rat)/2 < r then f + 1
  else if f % 2 = 0 then f else f + 1

/-! ## Alert classification (blynk_upload, lines 238-265) -/

/-- Severity of the BGL gauge, following the exact conditional chain of
`blynk_upload`: membership in the exception table, then the suspend flags,
then the low/high bounds or on-flags, then the pre bounds or before-flags. -/
def severityOf (cfg : BglConfig) (d : Snapshot) : Severity :=
  if (sensorExceptionStr d.sensorBGL).isSome then
    .sensorFault
  else if d.pumpAlert.alertSuspend || d.pumpAlert.alertSuspendLow then
    .suspended
  else if d.sensorBGL < cfg.bgl_low_val || d.sensorBGL > cfg.bgl_high_val
          || d.pumpAlert.alertOnLow || d.pumpAlert.alertOnHigh then
    .alert
  else if d.sensorBGL < cfg.bgl_pre_low_val || d.sensorBGL > cfg.bgl_pre_high_val
          || d.pumpAlert.alertBeforeLow || d.pumpAlert.alertBeforeHigh then
    .preAlert
  else
    .normal

/-- Gauge color assigned to each regular-branch severity tier. -/
def severityColor : Severity → String
  | .suspended => BLYNK_BLUE
  | .alert => BLYNK_RED
  | .preAlert => BLYNK_YELLOW
  | .normal => BLYNK_GREEN
  | .sensorFault => BLYNK_WHITE

/-- Battery bar band (`data_batt <= 25` red, `<= 50` yellow, else green). -/
def batteryBand (v : Int) : Band :=
  if v ≤ 25 then .critical else if v ≤ 50 then .warning else .normal

/-- Reservoir bar band (`<= 25` red, `<= 75` yellow, else green). -/
def reservoirBand (q : Rat) : Band :=
  if q ≤ 25 then .critical else if q ≤ 75 then .warning else .normal

/-- Bar color of each band. -/
def bandColor : Band → String
  | .critical => BLYNK_RED
  | .warning => BLYNK_YELLOW
  | .normal => BLYNK_GREEN

/-! ## Blynk uploader (blynk_upload, lines 229-316) -/

/-- Sensor-exception branch of `blynk_upload` (lines 238-250): gauge blanked
and colored white, trend placeholder, status line with a now-timestamp prefix
and the code's display string, colored red. -/
def exceptionOps (now : Int) (d : Snapshot) (codeStr : String) : List BlynkOp :=
  [ .write VPIN_SENSOR .none,
    .setColor VPIN_SENSOR BLYNK_WHITE,
    .write VPIN_ARROWS (.str ("--" ++ " / " ++ toString d.activeInsulin)),
    .write VPIN_STATUS (.str (hhmm now ++ " - " ++ codeStr)),
    .setColor VPIN_STATUS BLYNK_RED ]

/-- Regular-reading branch of `blynk_upload` (lines 251-273): gauge shows the
reading with its severity color, trend arrow with active insulin, status line
with the sensor timestamp and next calibration time, colored green. -/
def regularOps (cfg : BglConfig) (d : Snapshot) : List BlynkOp :=
  [ .write VPIN_SENSOR (.int d.sensorBGL),
    .setColor VPIN_SENSOR (severityColor (severityOf cfg d)),
    .write VPIN_ARROWS (.str (d.trendArrow ++ " / " ++ toString d.activeInsulin)),
    .write VPIN_STATUS (.str ("Updated " ++ hhmm d.sensorBGLTimestamp ++ " - " ++
      "Cal at " ++ hhmm (d.sensorBGLTimestamp + 60 * d.sensorCalMinutesRemaining))),
    .setColor VPIN_STATUS BLYNK_GREEN ]

/-- BGL part of `blynk_upload`: exception branch when the reading is a key of
`sensor_exception_codes`, regular branch otherwise. -/
def bglOps (cfg : BglConfig) (now : Int) (d : Snapshot) : List BlynkOp :=
  match sensorExceptionStr d.sensorBGL with
  | some codeStr => exceptionOps now d codeStr
  | none => regularOps cfg d

/-- Battery bar (lines 277-292): even cycles report the pump battery, odd
cycles the sensor battery, colored by `batteryBand`. -/
def battOps (cycleCount : Nat) (d : Snapshot) : List BlynkOp :=
  let dataBatt := if cycleCount % 2 = 0 then d.batteryLevelPercentage
                  else d.sensorBatteryLevelPercentage
  let labelBatt := if cycleCount % 2 = 0 then "PUMP BATTERY %"
                   else "SENSOR BATTERY %"
  [ .setLabel VPIN_BATTERY labelBatt,
    .write VPIN_BATTERY (.int dataBatt),
    .setColor VPIN_BATTERY (bandColor (batteryBand dataBatt)) ]

/-- Reservoir bar (lines 294-301), colored by `reservoirBand`. -/
def reservoirOps (d : Snapshot) : List BlynkOp :=
  [ .write VPIN_UNITS (.int (pyRound d.insulinUnitsRemaining)),
    .setColor VPIN_UNITS (bandColor (reservoirBand d.insulinUnitsRemaining)) ]

/-- Bolus / active-insulin section (lines 303-312). `stored` is the global
`lastBolusTime` (`none` models the initial Python `None`); the result pairs
the emitted writes with the new value of the global. -/
def bolusOps (stored : Option Int) (now : Int) (d : Snapshot) :
    List BlynkOp × Option Int :=
  if some d.lastBolusTime ≠ stored then
    ( if now - d.lastBolusTime < 2 * UPDATE_INTERVAL then
        [ .write VPIN_LASTBOLUS (.rat d.lastBolusAmount) ]
      else [],
      some d.lastBolusTime )
  else
    ([ .write VPIN_ACTINS (.rat d.activeInsulin) ], stored)

/-- `blynk_upload(data)`: on `None` only a red status color is set; otherwise
the BGL, battery, reservoir and bolus sections run in source order. Returns
the emitted operations and the new global `lastBolusTime`. -/
def blynk_upload (cfg : BglConfig) (stored : Option Int) (cycleCount : Nat)
    (now : Int) (data : Option Snapshot) : List BlynkOp × Option Int :=
  match data with
  | Option.none => ([ .setColor VPIN_STATUS BLYNK_RED ], stored)
  | Option.some d =>
    let bolus := bolusOps stored now d
    (bglOps cfg now d ++ battOps cycleCount d ++ reservoirOps d ++ bolus.1,
     bolus.2)

/-! ## Drift correction (upload_live_data, lines 354-361) -/

/-- RTC drift correction: `pumpTime += pumpTimeDrift`, and the same drift is
added to `sensorBGLTimestamp` unless the reading is `SENSOR_LOST`. -/
def driftCorrect (d : Snapshot) : Snapshot :=
  { d with
    pumpTime := d.pumpTime + d.pumpTimeDrift,
    sensorBGLTimestamp :=
      if d.sensorBGL ≠ SENSOR_LOST then d.sensorBGLTimestamp + d.pumpTimeDrift
      else d.sensorBGLTimestamp }

/-! ## Cycle driver (upload_live_data, lines 328-393) -/

/-- Retry-bounded fetch loop (lines 340-352): each list entry is the outcome
of one `readLiveData()` attempt (`none` models a raised exception); at most
`fuel` attempts are made and the first success wins. -/
def fetchLoop (attempts : List (Option Snapshot)) (fuel : Nat) : Option Snapshot :=
  match fuel, attempts with
  | 0, _ => Option.none
  | _, [] => Option.none
  | fuel' + 1, a :: rest =>
    match a with
    | Option.some s => Option.some s
    | Option.none => fetchLoop rest fuel'

/-- `tmoSeconds` computation (lines 377-386): on data, seconds until
`sensorBGLTimestamp + UPDATE_INTERVAL`, replaced by `RETRY_INTERVAL` when
negative; on no data, `RETRY_INTERVAL`. The timer itself is armed with this
value plus 10. -/
def nextTmo (ts : Option Int) (now : Int) : Int :=
  match ts with
  | Option.some t =>
    let tmo := t + UPDATE_INTERVAL - now
    if tmo < 0 then RETRY_INTERVAL else tmo
  | Option.none => RETRY_INTERVAL

/-- Process-wide mutable state touched by `upload_live_data`. -/
structure DaemonState where
  active : Bool
  cycleCount : Nat
  lastBolusTime : Option Int
deriving DecidableEq, Repr

/-- Environment of one `upload_live_data` invocation: the outcomes of the
fetch attempts, whether each uploader is configured and whether its guarded
call raises (the exception is caught at the call site, so a raising call is
modelled as having no observable effect), and the current wall clock. -/
structure CycleEnv where
  fetchAttempts : List (Option Snapshot)
  blynkEnabled : Bool
  blynkRaises : Bool
  nightscoutEnabled : Bool
  nightscoutRaises : Bool
  now : Int
deriving Repr

/-- Observable outcome of one `upload_live_data` invocation. -/
structure CycleOutput where
  blynkOps : List BlynkOp
  corrected : Option Snapshot
  nightscoutUploaded : Option Snapshot
  armedDelays : List Int
deriving DecidableEq, Repr

/-- Outcome of a reentrant call: nothing observable happens. -/
def emptyCycleOutput : CycleOutput :=
  { blynkOps := [], corrected := Option.none,
    nightscoutUploaded := Option.none, armedDelays := [] }

/-- `upload_live_data()`: reentrancy guard, retry-bounded fetch, drift
correction, guarded Blynk and Nightscout uploads, and rescheduling of exactly
one timer with delay `nextTmo + 10`. Returns the new daemon state (guard
cleared, cycle counter advanced, bolus state threaded through the Blynk
uploader) and the observable outcome. -/
def upload_live_data (cfg : BglConfig) (env : CycleEnv) (st : DaemonState) :
    DaemonState × CycleOutput :=
  if st.active then
    (st, emptyCycleOutput)
  else
    let fetched := fetchLoop env.fetchAttempts MAX_RETRIES_AT_FAILURE
    let liveData := fetched.map driftCorrect
    let blynkRes :=
      if env.blynkEnabled && !env.blynkRaises then
        blynk_upload cfg st.lastBolusTime st.cycleCount env.now liveData
      else
        ([], st.lastBolusTime)
    let nsUploaded :=
      if env.nightscoutEnabled && !env.nightscoutRaises then liveData
      else Option.none
    let tmoSeconds := nextTmo (liveData.map (fun d => d.sensorBGLTimestamp)) env.now
    ( { active := false, cycleCount := st.cycleCount + 1,
        lastBolusTime := blynkRes.2 },
      { blynkOps := blynkRes.1, corrected := liveData,
        nightscoutUploaded := nsUploaded, armedDelays := [tmoSeconds + 10] } )

/-! ## Configuration reading (to_int, read_config, lines 135-188) -/

/-- Python whitespace characters stripped by `int(...)`. -/
def isPyWs (c : Char) : Bool :=
  c = ' ' || c = '\t' || c = '\n' || c = '\r' || c = '\x0b' || c = '\x0c'

/-- Strip leading and trailing whitespace. -/
def stripWs (l : List Char) : List Char :=
  ((l.dropWhile isPyWs).reverse.dropWhile isPyWs).reverse

/-- Digit run with optional single underscores between digits, the body of a
Python integer literal: `digit ( underscore? digit )*`. -/
def digitRun : List Char → Option Nat
  | [] => Option.none
  | c :: rest =>
    if c.isDigit then digitRunGo (c.toNat - 48) rest else Option.none
where
  digitRunGo (acc : Nat) : List Char → Option Nat
    | [] => Option.some acc
    | '_' :: [] => Option.none
    | '_' :: c :: rest =>
      if c.isDigit then digitRunGo (acc * 10 + (c.toNat - 48)) rest
      else Option.none
    | c :: rest =>
      if c.isDigit then digitRunGo (acc * 10 + (c.toNat - 48)) rest
      else Option.none

/-- Python `int(string)`: strip whitespace, optional sign, digit run;
`none` models a raised `ValueError`. -/
def pythonInt (s : String) : Option Int :=
  match stripWs s.toList with
  | '+' :: rest => (digitRun rest).map (fun n => (n : Int))
  | '-' :: rest => (digitRun rest).map (fun n => -(n : Int))
  | rest => (digitRun rest).map (fun n => (n : Int))

/-- `to_int(string)` (lines 135-140): the parsed integer, or 0 when parsing
raises. -/
def to_int (s : String) : Int :=
  match pythonInt s with
  | Option.some i => i
  | Option.none => 0

/-- Lines 184-188 of `read_config`: a configured value of 0 for the pre-high
or high bound is replaced by 1000. -/
def applyDisabledDefaults (c : BglConfig) : BglConfig :=
  { c with
    bgl_pre_high_val := if c.bgl_pre_high_val = 0 then 1000 else c.bgl_pre_high_val,
    bgl_high_val := if c.bgl_high_val = 0 then 1000 else c.bgl_high_val }

/-- BGL-threshold part of `read_config` (lines 176-188): each option string is
converted with `to_int` and the disabled defaults are applied. Total: a
malformed value never raises, it becomes 0. -/
def readBglThresholds (lowS preLowS preHighS highS : String) : BglConfig :=
  applyDisabledDefaults
    { bgl_low_val := to_int lowS,
      bgl_pre_low_val := to_int preLowS,
      bgl_pre_high_val := to_int preHighS,
      bgl_high_val := to_int highS }

/-! ## Spec-side definitions used for refinement statements -/

/-- First-match-wins evaluation of an ordered rule list, defaulting to
`normal`: the spec's presentation of the severity decision. -/
def firstMatch : List (Bool × Severity) → Severity
  | [] => .normal
  | (c, s) :: rest => if c then s else firstMatch rest

/-- The spec's ordered severity rules for the regular-reading branch. -/
def specSeverityRules (cfg : BglConfig) (d : Snapshot) : List (Bool × Severity) :=
  [ (d.pumpAlert.alertSuspend || d.pumpAlert.alertSuspendLow, .suspended),
    (decide (d.sensorBGL < cfg.bgl_low_val) || decide (d.sensorBGL > cfg.bgl_high_val)
       || d.pumpAlert.alertOnLow || d.pumpAlert.alertOnHigh, .alert),
    (decide (d.sensorBGL < cfg.bgl_pre_low_val) || decide (d.sensorBGL > cfg.bgl_pre_high_val)
       || d.pumpAlert.alertBeforeLow || d.pumpAlert.alertBeforeHigh, .preAlert) ]

/-- The timer delay exactly as the claim words it: `(nextWake - now) + 10`,
falling back to `RETRY_INTERVAL` when that sum is negative, and
`RETRY_INTERVAL` on fetch failure. -/
def specTimerDelay (ts : Option Int) (now : Int) : Int :=
  match ts with
  | Option.some t =>
    let dl := t + UPDATE_INTERVAL - now + 10
    if dl < 0 then RETRY_INTERVAL else dl
  | Option.none => RETRY_INTERVAL

/-! ## Concrete sample values shared by the witnesses -/

def noAlerts : PumpAlert :=
  { alertSuspend := false, alertSuspendLow := false, alertOnLow := false,
    alertOnHigh := false, alertBeforeLow := false, alertBeforeHigh := false }

def sampleSnapshot : Snapshot :=
  { sensorBGL := 105, sensorBGLTimestamp := 1000, sensorCalMinutesRemaining := 60,
    pumpTime := 2000, pumpTimeDrift := 25, activeInsulin := 3/2,
    lastBolusAmount := 2, lastBolusTime := 800, insulinUnitsRemaining := 40,
    batteryLevelPercentage := 60, sensorBatteryLevelPercentage := 70,
    trendArrow := "^", pumpAlert := noAlerts }

def lostSnapshot : Snapshot :=
  { sampleSnapshot with sensorBGL := SENSOR_LOST }

def sampleCfg : BglConfig :=
  { bgl_low_val := 70, bgl_pre_low_val := 80,
    bgl_pre_high_val := 180, bgl_high_val := 250 }

def sampleEnv : CycleEnv :=
  { fetchAttempts := [Option.some sampleSnapshot], blynkEnabled := false,
    blynkRaises := false, nightscoutEnabled := false, nightscoutRaises := false,
    now := 1100 }

def initState : DaemonState :=
  { active := false, cycleCount := 0, lastBolusTime := Option.none }

def busyState : DaemonState :=
  { active := true, cycleCount := 4, lastBolusTime := Option.some 800 }

/-! ## C3: severity precedence -/

/-- C3: for every non-exception snapshot, the severity computed by the
uploader's conditional chain equals first-match-wins evaluation of the spec's
ordered rule list (suspend flags, then low/high bounds or on-flags, then pre
bounds or before-flags, else normal), so the highest-precedence matching tier
always wins. -/
theorem severity_first_match (cfg : BglConfig) (d : Snapshot)
    (h : sensorExceptionStr d.sensorBGL = Option.none) :
    severityOf cfg d = firstMatch (specSeverityRules cfg d) := by
  simp only [severityOf, specSeverityRules, firstMatch, h, Option.isSome_none,
    Bool.false_eq_true, if_false]

/-- Witness for C3 at a concrete normal-range snapshot. -/
theorem severity_first_match_witness :
    severityOf sampleCfg sampleSnapshot
      = firstMatch (specSeverityRules sampleCfg sampleSnapshot) :=
  severity_first_match sampleCfg sampleSnapshot (by decide)

/-! ## C6: bolus-change detection -/

/-- C6: comparing the snapshot's last-bolus timestamp with the stored value,
a change updates the stored value and emits the last-bolus amount exactly when
`now - newBolusTime < 2 * UPDATE_INTERVAL` (a stale bolus emits nothing at
all); an unchanged timestamp emits an active-insulin update instead and leaves
the stored value alone. -/
theorem bolus_change_detection (stored : Option Int) (now : Int) (d : Snapshot) :
    (stored ≠ Option.some d.lastBolusTime →
      (bolusOps stored now d).2 = Option.some d.lastBolusTime ∧
      ((bolusOps stored now d).1
          = [BlynkOp.write VPIN_LASTBOLUS (BVal.rat d.lastBolusAmount)]
        ↔ now - d.lastBolusTime < 2 * UPDATE_INTERVAL) ∧
      (2 * UPDATE_INTERVAL ≤ now - d.lastBolusTime →
        (bolusOps stored now d).1 = [])) ∧
    (stored = Option.some d.lastBolusTime →
      (bolusOps stored now d).1
          = [BlynkOp.write VPIN_ACTINS (BVal.rat d.activeInsulin)] ∧
      (bolusOps stored now d).2 = stored) := by
  constructor
  · intro hne
    have hc : (Option.some d.lastBolusTime ≠ stored) := fun h => hne h.symm
    by_cases hrec : now - d.lastBolusTime < 2 * UPDATE_INTERVAL
    · simp [bolusOps, hc, hrec]
    · simp [bolusOps, hc, hrec]
  · intro heq
    simp [bolusOps, heq]

/-- Witness for C6: a new recent bolus updates the stored timestamp; an
unchanged timestamp yields the active-insulin write. -/
theorem bolus_change_detection_witness :
    (bolusOps Option.none 1000 sampleSnapshot).2
        = Option.some sampleSnapshot.lastBolusTime ∧
    (bolusOps (Option.some 800) 1000 sampleSnapshot).1
        = [BlynkOp.write VPIN_ACTINS (BVal.rat sampleSnapshot.activeInsulin)] :=
  ⟨((bolus_change_detection Option.none 1000 sampleSnapshot).1 (by decide)).1,
   ((bolus_change_detection (Option.some 800) 1000 sampleSnapshot).2 (by decide)).1⟩

/-! ## C7: drift correction -/

/-- C7: drift correction adds `pumpTimeDrift` to `pumpTime`, adds the same
drift to `sensorBGLTimestamp` unless the reading is the `SENSOR_LOST` code
(then the timestamp is untouched even for nonzero drift), changes nothing
else that feeds classification, and is applied exactly once to the fetched
snapshot by the cycle driver. -/
theorem driftCorrect_spec (d : Snapshot) (cfg : BglConfig) (env : CycleEnv)
    (st : DaemonState) :
    (driftCorrect d).pumpTime = d.pumpTime + d.pumpTimeDrift ∧
    (d.sensorBGL = SENSOR_LOST →
      (driftCorrect d).sensorBGLTimestamp = d.sensorBGLTimestamp) ∧
    (d.sensorBGL ≠ SENSOR_LOST →
      (driftCorrect d).sensorBGLTimestamp
        = d.sensorBGLTimestamp + d.pumpTimeDrift) ∧
    (driftCorrect d).sensorBGL = d.sensorBGL ∧
    (st.active = false →
      (upload_live_data cfg env st).2.corrected
        = (fetchLoop env.fetchAttempts MAX_RETRIES_AT_FAILURE).map driftCorrect) := by
  refine ⟨rfl, ?_, ?_, rfl, ?_⟩
  · intro h
    simp [driftCorrect, h]
  · intro h
    simp [driftCorrect, h]
  · intro h
    simp [upload_live_data, h]

/-- Witness for C7: the lost-sensor snapshot keeps its timestamp, the regular
snapshot is shifted by the drift, and the cycle driver hands the corrected
snapshot to the uploaders. -/
theorem driftCorrect_spec_witness :
    (driftCorrect lostSnapshot).sensorBGLTimestamp
        = lostSnapshot.sensorBGLTimestamp ∧
    (driftCorrect sampleSnapshot).sensorBGLTimestamp
        = sampleSnapshot.sensorBGLTimestamp + sampleSnapshot.pumpTimeDrift ∧
    (upload_live_data sampleCfg sampleEnv initState).2.corrected
        = (fetchLoop sampleEnv.fetchAttempts MAX_RETRIES_AT_FAILURE).map driftCorrect :=
  ⟨(driftCorrect_spec lostSnapshot sampleCfg sampleEnv initState).2.1 (by decide),
   (driftCorrect_spec sampleSnapshot sampleCfg sampleEnv initState).2.2.1 (by decide),
   (driftCorrect_spec sampleSnapshot sampleCfg sampleEnv initState).2.2.2.2 rfl⟩

/-! ## C8: battery and reservoir bands -/

/-- C8: the battery bar is critical (red) for values at most 25, warning
(yellow) strictly between 25 and 50 inclusive, normal (green) above 50; the
reservoir bar follows the same policy with bounds 25 and 75; the boundary
values 25, 50 and 75 land in the more severe band. -/
theorem battery_reservoir_bands (v : Int) (q : Rat) :
    (v ≤ 25 → batteryBand v = .critical) ∧
    (25 < v → v ≤ 50 → batteryBand v = .warning) ∧
    (50 < v → batteryBand v = .normal) ∧
    (q ≤ 25 → reservoirBand q = .critical) ∧
    (25 < q → q ≤ 75 → reservoirBand q = .warning) ∧
    (75 < q → reservoirBand q = .normal) ∧
    batteryBand 25 = .critical ∧ batteryBand 50 = .warning ∧
    reservoirBand 25 = .critical ∧ reservoirBand 75 = .warning ∧
    bandColor .critical = BLYNK_RED ∧ bandColor .warning = BLYNK_YELLOW ∧
    bandColor .normal = BLYNK_GREEN := by
  refine ⟨?_, ?_, ?_, ?_, ?_, ?_, by decide, by decide, by norm_num [reservoirBand],
    by norm_num [reservoirBand], rfl, rfl, rfl⟩
  · intro h; simp [batteryBand, h]
  · intro h1 h2; simp [batteryBand, h2]; omega
  · intro h; unfold batteryBand; split_ifs <;> first | rfl | omega
  · intro h; simp [reservoirBand, h]
  · intro h1 h2; simp [reservoirBand, h2]; linarith
  · intro h; unfold reservoirBand; split_ifs <;> first | rfl | linarith

/-- Witness for C8 across all six bands. -/
theorem battery_reservoir_bands_witness :
    batteryBand 20 = .critical ∧ batteryBand 30 = .warning ∧
    batteryBand 60 = .normal ∧ reservoirBand 20 = .critical ∧
    reservoirBand 40 = .warning ∧ reservoirBand 80 = .normal :=
  ⟨(battery_reservoir_bands 20 20).1 (by norm_num),
   ((battery_reservoir_bands 30 20).2.1 (by norm_num)) (by norm_num),
   (battery_reservoir_bands 60 20).2.2.1 (by norm_num),
   (battery_reservoir_bands 20 20).2.2.2.1 (by norm_num),
   (((battery_reservoir_bands 20 40).2.2.2.2.1 (by norm_num)) (by norm_num)),
   ((battery_reservoir_bands 20 80).2.2.2.2.2.1 (by norm_num))⟩

/-! ## C1: sensor-exception branch of the uploader -/

/-- Every spec-enumerated exception code has an entry in the uploader's
lookup table. -/
theorem specCodes_lookup :
    specExceptionCodes.all (fun c => (sensorExceptionStr c).isSome) = true := by
  decide

/-- C1: for every snapshot whose reading is one of the 13 enumerated
exception codes, classification yields sensor-fault severity, the status line
is that code's canonical display string behind a now-timestamp prefix, and the
trend display is the placeholder combined with the active-insulin value — for
any alert flags, stored bolus state, cycle parity and thresholds. -/
theorem exception_branch_display (cfg : BglConfig) (stored : Option Int)
    (cc : Nat) (now : Int) (d : Snapshot)
    (h : d.sensorBGL ∈ specExceptionCodes) :
    (sensorExceptionStr d.sensorBGL).isSome ∧
    severityOf cfg d = .sensorFault ∧
    BlynkOp.write VPIN_STATUS
        (BVal.str (hhmm now ++ " - " ++ (sensorExceptionStr d.sensorBGL).getD ""))
      ∈ (blynk_upload cfg stored cc now (Option.some d)).1 ∧
    BlynkOp.write VPIN_ARROWS
        (BVal.str ("--" ++ " / " ++ toString d.activeInsulin))
      ∈ (blynk_upload cfg stored cc now (Option.some d)).1 := by
  have hsome : (sensorExceptionStr d.sensorBGL).isSome := by
    exact List.all_eq_true.mp specCodes_lookup _ h
  obtain ⟨codeStr, hs⟩ := Option.isSome_iff_exists.mp hsome
  refine ⟨hsome, ?_, ?_, ?_⟩
  · simp [severityOf, hs]
  · simp [blynk_upload, bglOps, hs, exceptionOps]
  · simp [blynk_upload, bglOps, hs, exceptionOps]

def calSnapshot : Snapshot :=
  { sampleSnapshot with sensorBGL := SENSOR_CAL_NEEDED }

/-- Witness for C1 at the calibration-needed code. -/
theorem exception_branch_display_witness :
    (sensorExceptionStr calSnapshot.sensorBGL).isSome ∧
    severityOf sampleCfg calSnapshot = .sensorFault ∧
    BlynkOp.write VPIN_STATUS
        (BVal.str (hhmm 3600 ++ " - " ++ (sensorExceptionStr calSnapshot.sensorBGL).getD ""))
      ∈ (blynk_upload sampleCfg Option.none 0 3600 (Option.some calSnapshot)).1 ∧
    BlynkOp.write VPIN_ARROWS
        (BVal.str ("--" ++ " / " ++ toString calSnapshot.activeInsulin))
      ∈ (blynk_upload sampleCfg Option.none 0 3600 (Option.some calSnapshot)).1 :=
  exception_branch_display sampleCfg Option.none 0 3600 calSnapshot (by decide)

/-! ## C9: SENSOR_OK is in the lookup table -/

/-- C9: the uploader's lookup table also contains `SENSOR_OK` (0x0300,
"Sensor OK"), a 14th entry beyond the spec's 13-code exception set, so a
snapshot reading `SENSOR_OK` is routed to the sensor-fault branch: the gauge
is blanked and colored white and the status line is colored red. -/
theorem sensor_ok_routed (cfg : BglConfig) (stored : Option Int) (cc : Nat)
    (now : Int) (d : Snapshot) (h : d.sensorBGL = SENSOR_OK) :
    sensorExceptionStr SENSOR_OK = Option.some SENSOR_OK_STR ∧
    SENSOR_OK ∉ specExceptionCodes ∧
    sensor_exception_codes.length = specExceptionCodes.length + 1 ∧
    severityOf cfg d = .sensorFault ∧
    BlynkOp.write VPIN_SENSOR BVal.none
      ∈ (blynk_upload cfg stored cc now (Option.some d)).1 ∧
    BlynkOp.setColor VPIN_SENSOR BLYNK_WHITE
      ∈ (blynk_upload cfg stored cc now (Option.some d)).1 ∧
    BlynkOp.setColor VPIN_STATUS BLYNK_RED
      ∈ (blynk_upload cfg stored cc now (Option.some d)).1 := by
  have hx : sensorExceptionStr d.sensorBGL = Option.some SENSOR_OK_STR := by
    rw [h]; decide
  refine ⟨by decide, by decide, by decide, ?_, ?_, ?_, ?_⟩
  · simp [severityOf, hx]
  · simp [blynk_upload, bglOps, hx, exceptionOps]
  · simp [blynk_upload, bglOps, hx, exceptionOps]
  · simp [blynk_upload, bglOps, hx, exceptionOps]

def okSnapshot : Snapshot :=
  { sampleSnapshot with sensorBGL := SENSOR_OK }

/-- Witness for C9 at a concrete SENSOR_OK snapshot. -/
theorem sensor_ok_routed_witness :
    sensorExceptionStr SENSOR_OK = Option.some SENSOR_OK_STR ∧
    SENSOR_OK ∉ specExceptionCodes ∧
    sensor_exception_codes.length = specExceptionCodes.length + 1 ∧
    severityOf sampleCfg okSnapshot = .sensorFault ∧
    BlynkOp.write VPIN_SENSOR BVal.none
      ∈ (blynk_upload sampleCfg Option.none 2 3600 (Option.some okSnapshot)).1 ∧
    BlynkOp.setColor VPIN_SENSOR BLYNK_WHITE
      ∈ (blynk_upload sampleCfg Option.none 2 3600 (Option.some okSnapshot)).1 ∧
    BlynkOp.setColor VPIN_STATUS BLYNK_RED
      ∈ (blynk_upload sampleCfg Option.none 2 3600 (Option.some okSnapshot)).1 :=
  sensor_ok_routed sampleCfg Option.none 2 3600 okSnapshot rfl

/-! ## C2: rescheduling delay (corrected) -/

def lateSnapshot : Snapshot :=
  { sampleSnapshot with sensorBGLTimestamp := 0, pumpTimeDrift := 0 }

def lateEnv : CycleEnv :=
  { fetchAttempts := [Option.some lateSnapshot], blynkEnabled := false,
    blynkRaises := false, nightscoutEnabled := false, nightscoutRaises := false,
    now := 305 }

/-- Counterexample to C2 as stated: with the corrected sensor timestamp 0 and
now = 305, the claim's formula `(nextWake - now) + 10 = 5` is non-negative, so
the claim predicts a 5-second timer delay; the code tests `nextWake - now`
(here -5) before adding the margin and arms the timer with
`RETRY_INTERVAL + 10 = 190` seconds instead. -/
theorem reschedule_delay_cex :
    (upload_live_data sampleCfg lateEnv initState).2.armedDelays = [190] ∧
    specTimerDelay (Option.some ((driftCorrect lateSnapshot).sensorBGLTimestamp))
        lateEnv.now = 5 ∧
    (190 : Int) ≠ 5 := by
  decide

/-- C2 amended: the negativity test applies to `nextWake - now` before the
10-second margin is added, the fallback replaces that difference (not the
final delay) by `RETRY_INTERVAL`, and the timer is always armed with the
resulting value plus 10 — so the fallback and total-failure timer delays are
`RETRY_INTERVAL + 10 = 190` seconds. -/
theorem reschedule_delay_amended (cfg : BglConfig) (env : CycleEnv)
    (st : DaemonState) (t now : Int) :
    (st.active = false →
      (upload_live_data cfg env st).2.armedDelays
        = [ nextTmo (((fetchLoop env.fetchAttempts MAX_RETRIES_AT_FAILURE).map
              driftCorrect).map (fun d => d.sensorBGLTimestamp)) env.now + 10 ]) ∧
    (0 ≤ t + UPDATE_INTERVAL - now →
      nextTmo (Option.some t) now = t + UPDATE_INTERVAL - now) ∧
    (t + UPDATE_INTERVAL - now < 0 →
      nextTmo (Option.some t) now = RETRY_INTERVAL) ∧
    nextTmo Option.none now = RETRY_INTERVAL := by
  refine ⟨?_, ?_, ?_, rfl⟩
  · intro h
    simp [upload_live_data, h]
  · intro h
    simp only [nextTmo, UPDATE_INTERVAL] at h ⊢
    rw [if_neg (by omega)]
  · intro h
    simp only [nextTmo, UPDATE_INTERVAL, RETRY_INTERVAL] at h ⊢
    rw [if_pos (by omega)]

/-- Witness for C2 amended: the timer delay of a concrete late cycle, a
punctual next-wake difference, and a negative difference falling back. -/
theorem reschedule_delay_amended_witness :
    (upload_live_data sampleCfg lateEnv initState).2.armedDelays
      = [ nextTmo (((fetchLoop lateEnv.fetchAttempts MAX_RETRIES_AT_FAILURE).map
            driftCorrect).map (fun d => d.sensorBGLTimestamp)) lateEnv.now + 10 ] ∧
    nextTmo (Option.some 0) 100 = 0 + UPDATE_INTERVAL - 100 ∧
    nextTmo (Option.some 0) 305 = RETRY_INTERVAL :=
  ⟨(reschedule_delay_amended sampleCfg lateEnv initState 0 100).1 rfl,
   (reschedule_delay_amended sampleCfg lateEnv initState 0 100).2.1 (by decide),
   (reschedule_delay_amended sampleCfg lateEnv initState 0 305).2.2.1 (by decide)⟩

/-! ## C4: reentrancy guard and unconditional rescheduling -/

/-- C4: a call while the in-progress guard is set returns the state unchanged
with no observable effects; otherwise — for every combination of fetch
outcomes and uploader faults — the guard is clear again at the end of the call
and exactly one future invocation has been armed. -/
theorem cycle_guard (cfg : BglConfig) (env : CycleEnv) (st : DaemonState) :
    (st.active = true → upload_live_data cfg env st = (st, emptyCycleOutput)) ∧
    (st.active = false →
      (upload_live_data cfg env st).1.active = false ∧
      (upload_live_data cfg env st).2.armedDelays.length = 1) := by
  constructor
  · intro h
    simp [upload_live_data, h]
  · intro h
    simp [upload_live_data, h]

/-- Witness for C4: a busy-guard call is a no-op, an idle-guard call ends
with the guard clear and one armed timer. -/
theorem cycle_guard_witness :
    upload_live_data sampleCfg sampleEnv busyState = (busyState, emptyCycleOutput) ∧
    ((upload_live_data sampleCfg sampleEnv initState).1.active = false ∧
     (upload_live_data sampleCfg sampleEnv initState).2.armedDelays.length = 1) :=
  ⟨(cycle_guard sampleCfg sampleEnv busyState).1 rfl,
   (cycle_guard sampleCfg sampleEnv initState).2 rfl⟩

/-! ## C5: zero-configured high thresholds (corrected) -/

def zeroCfgRaw : BglConfig :=
  { bgl_low_val := 70, bgl_pre_low_val := 80,
    bgl_pre_high_val := 0, bgl_high_val := 0 }

def zeroCfg : BglConfig := applyDisabledDefaults zeroCfgRaw

def highSnapshot : Snapshot :=
  { sampleSnapshot with sensorBGL := 1001 }

/-- Counterexample to C5 as stated: a zero-configured high threshold becomes
the sentinel 1000, not an unreachable bound. A snapshot reading 1001 with no
alert flags and a reading above the low bound is classified alert purely
because `reading > bound` fires on the substituted bound. -/
theorem disabled_bound_cex :
    zeroCfgRaw.bgl_high_val = 0 ∧ zeroCfgRaw.bgl_pre_high_val = 0 ∧
    zeroCfg.bgl_high_val = 1000 ∧ zeroCfg.bgl_pre_high_val = 1000 ∧
    highSnapshot.pumpAlert = noAlerts ∧
    ¬(highSnapshot.sensorBGL < zeroCfg.bgl_low_val) ∧
    highSnapshot.sensorBGL > zeroCfg.bgl_high_val ∧
    severityOf zeroCfg highSnapshot = .alert := by
  decide

/-- C5 amended: a zero-configured pre-high or high threshold is replaced by
the sentinel 1000, so `reading > bound` never fires for any reading up to
1000 (which covers the physiological range), though it does fire for readings
above the sentinel. -/
theorem disabled_bound_amended (c : BglConfig) (r : Int)
    (hp : c.bgl_pre_high_val = 0) (hh : c.bgl_high_val = 0) (hr : r ≤ 1000) :
    (applyDisabledDefaults c).bgl_pre_high_val = 1000 ∧
    (applyDisabledDefaults c).bgl_high_val = 1000 ∧
    ¬(r > (applyDisabledDefaults c).bgl_pre_high_val) ∧
    ¬(r > (applyDisabledDefaults c).bgl_high_val) := by
  simp [applyDisabledDefaults, hp, hh]
  omega

/-- Witness for C5 amended at a zero-configured config and reading 400. -/
theorem disabled_bound_amended_witness :
    (applyDisabledDefaults zeroCfgRaw).bgl_pre_high_val = 1000 ∧
    (applyDisabledDefaults zeroCfgRaw).bgl_high_val = 1000 ∧
    ¬((400 : Int) > (applyDisabledDefaults zeroCfgRaw).bgl_pre_high_val) ∧
    ¬((400 : Int) > (applyDisabledDefaults zeroCfgRaw).bgl_high_val) :=
  disabled_bound_amended zeroCfgRaw 400 rfl rfl (by norm_num)

/-! ## C10: malformed configuration values -/

def malformedA : String := "abc"
def malformedB : String := "12.5"
def lowStr : String := "70"
def preLowStr : String := "80"

/-- C10: a configuration string that does not parse as an integer makes
`to_int` return 0, and a malformed pre-high or high threshold therefore
becomes 0 and is then replaced by the disabled sentinel 1000; the threshold
reader is total, so no configuration error is raised. -/
theorem to_int_malformed_disabled (s t lowS preLowS : String)
    (hs : pythonInt s = Option.none) (ht : pythonInt t = Option.none) :
    to_int s = 0 ∧ to_int t = 0 ∧
    (readBglThresholds lowS preLowS s t).bgl_pre_high_val = 1000 ∧
    (readBglThresholds lowS preLowS s t).bgl_high_val = 1000 := by
  simp [to_int, readBglThresholds, applyDisabledDefaults, hs, ht]

/-- Witness for C10: an alphabetic pre-high value and a decimal-point high
value both yield the disabled sentinel. -/
theorem to_int_malformed_disabled_witness :
    to_int malformedA = 0 ∧ to_int malformedB = 0 ∧
    (readBglThresholds lowStr preLowStr malformedA malformedB).bgl_pre_high_val = 1000 ∧
    (readBglThresholds lowStr preLowStr malformedA malformedB).bgl_high_val = 1000 :=
  to_int_malformed_disabled malformedA malformedB lowStr preLowStr
    (by decide) (by decide)
